import Mathlib

/-!
Shallow embedding of the conversation-state manager in `src/main.py`
(class `ConversationManager`) of the Dynamic_AI_Chatbot repository.

External capabilities are parameters of the embedding:
* the tokenizer (`tiktoken`) is a function `tok : String → Nat`
  (`count_tokens` delegates to it; the encoding-selection `try/except`
  lives inside that external capability);
* the completion provider (`self.client.chat.completions.create`) is
  represented by the outcome `ProviderResult` supplied with each call;
* the file system used by `save_conversation_history` /
  `load_conversation_history` is a store mapping file names to the JSON
  value the file holds (the `json` module round-trips such values).

Python `dict`s with string keys are association lists that keep insertion
order; attribute assignment that may not have happened (`self.api_key` is
only assigned when the `api_key` argument is `None`, lines 42-45) is
tracked with `Option`, and reading an unassigned attribute raises
`AttributeError` (line 67), embedded as `Except InitError`.
-/

/-- A chat message: a Python dict `{"role": ..., "content": ...}`
(src/main.py uses plain dicts with exactly these two string fields). -/
structure Message where
  role : String
  content : String
deriving Repr, DecidableEq

/-- Configuration and state of `ConversationManager` (src/main.py lines 21-67).
`api_key` holds the value of `self.api_key` (only ever the environment
default, see `ConversationManager.init`); `client_api_key` / `client_base_url`
are the arguments the `OpenAI(...)` client was constructed with (line 67). -/
structure ConversationManager where
  api_key : Option String
  base_url : String
  model : String
  temperature : Rat
  max_tokens : Nat
  token_budget : Nat
  history_file : String
  system_messages : List (String × String)
  system_message : String
  conversation_history : List Message
  client_api_key : Option String
  client_base_url : String
deriving Repr, DecidableEq

/-- src/main.py line 14. -/
def DEFAULT_MODEL : String := "gpt-4o-mini"

/-- src/main.py line 15. -/
def DEFAULT_BASE_URL : String := "https://api.openai.com/v1"

/-- src/main.py line 16 (`0.7`, as an exact rational). -/
def DEFAULT_TEMPERATURE : Rat := 7 / 10

/-- src/main.py line 17. -/
def DEFAULT_MAX_TOKENS : Nat := 512

/-- src/main.py line 18. -/
def DEFAULT_TOKEN_BUDGET : Nat := 4000

/-- The persona catalog built at src/main.py lines 54-59, in insertion order. -/
def defaultSystemMessages : List (String × String) :=
  [("sassy_assistant", "You are a sassy assistant who is fed up with answering questions."),
   ("angry_assistant", "You are an angry assistant that likes yelling in all caps."),
   ("thoughtful_assistant", "You are a thoughtful assistant, always ready to dig deeper. You ask clarifying questions to ensure you understood and approach problems with a step-by-step methodology."),
   ("custom", "Enter your custom message here.")]

/-- Python truthiness resolution `x if x else d` for an optional string
argument (src/main.py lines 47, 51): `None` and `""` are falsy. -/
def pyOrDefaultStr (value : Option String) (fallback : String) : String :=
  match value with
  | none => fallback
  | some s => if s = "" then fallback else s

/-- Python truthiness resolution `x if x else d` for an optional numeric
argument (src/main.py lines 48-50): `None` and `0` are falsy. -/
def pyOrDefaultNat (value : Option Nat) (fallback : Nat) : Nat :=
  match value with
  | none => fallback
  | some n => if n = 0 then fallback else n

/-- Python truthiness resolution `x if x else d` for the float-valued
`temperature` argument (src/main.py line 48): `None` and `0.0` are falsy. -/
def pyOrDefaultRat (value : Option Rat) (fallback : Rat) : Rat :=
  match value with
  | none => fallback
  | some q => if q = 0 then fallback else q

/-- `count_tokens` (src/main.py lines 128-139): delegates to the external
tokenizer capability `tok` (tiktoken encoding selection happens inside it). -/
def count_tokens (tok : String → Nat) (text : String) : Nat :=
  tok text

/-- `total_tokens_used` (src/main.py lines 120-126): sum of
`count_tokens(message["content"])` over the whole history. -/
def total_tokens_used (tok : String → Nat) (history : List Message) : Nat :=
  (history.map (fun m => count_tokens tok m.content)).sum

/-- The `while` loop of `enforce_token_budget` (src/main.py lines 114-118)
with an explicit bound `fuel` on the number of iterations; each iteration
that does not exit pops index 1 (`self.conversation_history.pop(1)`).
`enforce_token_budget` runs it with `fuel = history.length`, which is
sufficient because every iteration that continues shortens the list by one
and the loop exits at length ≤ 1 (see `enforceLoop_steps`). -/
def enforceTokenBudgetLoop (tok : String → Nat) (budget : Nat) :
    Nat → List Message → List Message
  | 0, history => history
  | fuel + 1, history =>
    if total_tokens_used tok history > budget then
      if 1 < history.length then
        enforceTokenBudgetLoop tok budget fuel (history.eraseIdx 1)
      else history
    else history

/-- `enforce_token_budget` (src/main.py lines 108-118). -/
def enforce_token_budget (tok : String → Nat) (budget : Nat)
    (history : List Message) : List Message :=
  enforceTokenBudgetLoop tok budget history.length history

/-- Number of `pop(1)` iterations the `enforce_token_budget` loop performs,
counted alongside `enforceTokenBudgetLoop` with the same structure. -/
def enforceTokenBudgetStepsLoop (tok : String → Nat) (budget : Nat) :
    Nat → List Message → Nat
  | 0, _ => 0
  | fuel + 1, history =>
    if total_tokens_used tok history > budget then
      if 1 < history.length then
        enforceTokenBudgetStepsLoop tok budget fuel (history.eraseIdx 1) + 1
      else 0
    else 0

/-- Number of messages `enforce_token_budget` removes (loop iterations that
pop), for the same fuel `enforce_token_budget` uses. -/
def enforce_token_budget_steps (tok : String → Nat) (budget : Nat)
    (history : List Message) : Nat :=
  enforceTokenBudgetStepsLoop tok budget history.length history

/-- Outcome of one call to the external completion provider
(`self.client.chat.completions.create`, src/main.py lines 199-204):
a response text, a provider-reported error (the `openai` error branch,
line 213), or any other unexpected failure (line 216). -/
inductive ProviderResult where
  | success (content : String)
  | openAIError
  | otherError
deriving Repr, DecidableEq

/-- The request `chat_completion` hands to the provider
(src/main.py lines 199-204). -/
structure ChatRequest where
  model : String
  messages : List Message
  temperature : Rat
  max_tokens : Nat
deriving Repr, DecidableEq

/-- Arguments of one `chat_completion` call (src/main.py line 177) together
with the provider outcome for that call. -/
structure ChatCall where
  prompt : String
  temperature : Option Rat
  max_tokens : Option Nat
  model : Option String
  providerResult : ProviderResult
deriving Repr, DecidableEq

/-- Observable result of one `chat_completion` call: the returned string,
the manager state afterwards, the request sent to the provider, and whether
`save_conversation_history` ran. -/
structure ChatResult where
  response : String
  state : ConversationManager
  request : ChatRequest
  saved : Bool
deriving Repr, DecidableEq

/-- `chat_completion` (src/main.py lines 177-218).
Per-call `temperature` and `max_tokens` are resolved with an `is not None`
check (lines 189-190) into local variables, never written back to `self`;
the user prompt is appended (line 193), the budget enforced (line 196), and
the request is sent with `self.model` (line 200) — the per-call `model`
argument is accepted but never used. On success the assistant message is
appended and the history saved (lines 207-210); on a provider-reported
error the fixed string of line 215 is returned, on any other failure the
fixed string of line 218 (spelled "occured" in the source); in both failure
branches nothing further is appended and no save happens. -/
def chat_completion (tok : String → Nat) (mgr : ConversationManager)
    (c : ChatCall) : ChatResult :=
  let temperature := c.temperature.getD mgr.temperature
  let max_tokens := c.max_tokens.getD mgr.max_tokens
  let hist1 := mgr.conversation_history ++ [⟨"user", c.prompt⟩]
  let hist2 := enforce_token_budget tok mgr.token_budget hist1
  let req : ChatRequest := ⟨mgr.model, hist2, temperature, max_tokens⟩
  match c.providerResult with
  | ProviderResult.success content =>
    { response := content,
      state := { mgr with conversation_history := hist2 ++ [⟨"assistant", content⟩] },
      request := req,
      saved := true }
  | ProviderResult.openAIError =>
    { response := "I am sorry, but I can\x27t process that request right now.",
      state := { mgr with conversation_history := hist2 },
      request := req,
      saved := false }
  | ProviderResult.otherError =>
    { response := "An error occured. Please try again.",
      state := { mgr with conversation_history := hist2 },
      request := req,
      saved := false }

/-- A sequence of `chat_completion` calls threaded through the manager state. -/
def runCalls (tok : String → Nat) (mgr : ConversationManager)
    (calls : List ChatCall) : ConversationManager :=
  calls.foldl (fun m c => (chat_completion tok m c).state) mgr

/-- Errors raised by persona management (src/main.py lines 153 and 163 both
raise `ValueError`; the two code paths are the spec taxonomy's
`UnknownPersonaError` and `EmptyMessageError`). -/
inductive ManagerError where
  | unknownPersona (name : String)
  | emptyMessage
deriving Repr, DecidableEq

/-- Python dict assignment `d[k] = v` on an insertion-ordered association
list: replaces the value of an existing key in place, otherwise appends the
new binding at the end. -/
def updateAssoc {α : Type} : List (String × α) → String → α → List (String × α)
  | [], k, v => [(k, v)]
  | (k', v') :: rest, k, v =>
    if k' = k then (k, v) :: rest else (k', v') :: updateAssoc rest k v

/-- The characters Python `str.strip()` removes by default: exactly the 29
codepoints CPython's `Py_UNICODE_ISSPACE` accepts — U+0009..U+000D,
U+001C..U+001F, U+0020, U+0085, U+00A0, U+1680, U+2000..U+200A, U+2028,
U+2029, U+202F, U+205F and U+3000. -/
def isPySpace (c : Char) : Bool :=
  let n := c.toNat
  n == 0x09 || n == 0x0a || n == 0x0b || n == 0x0c || n == 0x0d
    || n == 0x1c || n == 0x1d || n == 0x1e || n == 0x1f
    || n == 0x20 || n == 0x85 || n == 0xa0 || n == 0x1680
    || n == 0x2000 || n == 0x2001 || n == 0x2002 || n == 0x2003
    || n == 0x2004 || n == 0x2005 || n == 0x2006 || n == 0x2007
    || n == 0x2008 || n == 0x2009 || n == 0x200a
    || n == 0x2028 || n == 0x2029 || n == 0x202f || n == 0x205f || n == 0x3000

/-- Truth of `not custom_message.strip()` (src/main.py line 162): the string
is empty or consists only of whitespace. -/
def pyStripIsEmpty (s : String) : Bool :=
  s.data.all isPySpace

/-- `update_system_message_in_history` (src/main.py lines 167-174): if the
history is non-empty and its head has role "system", only that head's
content is overwritten; otherwise a fresh system message is inserted at
index 0. -/
def update_system_message_in_history (mgr : ConversationManager) :
    ConversationManager :=
  match mgr.conversation_history with
  | m :: rest =>
    if m.role = "system" then
      { mgr with conversation_history := { m with content := mgr.system_message } :: rest }
    else
      { mgr with conversation_history := ⟨"system", mgr.system_message⟩ :: m :: rest }
  | [] => { mgr with conversation_history := [⟨"system", mgr.system_message⟩] }

/-- `set_persona` (src/main.py lines 142-153): Python raising leaves `self`
as it was when the exception was raised, so the result pairs the manager
state with the optional error. On an unknown persona nothing was mutated
before the `raise` (line 153). -/
def set_persona (mgr : ConversationManager) (persona : String) :
    ConversationManager × Option ManagerError :=
  match List.lookup persona mgr.system_messages with
  | some text =>
    (update_system_message_in_history { mgr with system_message := text }, none)
  | none => (mgr, some (ManagerError.unknownPersona persona))

/-- `set_custom_system_message` (src/main.py lines 155-165): rejects
empty/whitespace-only text before any mutation, otherwise stores the text
under catalog key "custom" and switches to that persona. -/
def set_custom_system_message (mgr : ConversationManager)
    (custom_message : String) : ConversationManager × Option ManagerError :=
  if pyStripIsEmpty custom_message then
    (mgr, some ManagerError.emptyMessage)
  else
    set_persona
      { mgr with system_messages := updateAssoc mgr.system_messages "custom" custom_message }
      "custom"

/-- JSON values as the `json` module produces them for this program:
the persisted history only involves strings, arrays and objects
(objects keep key insertion order, like Python dicts). -/
inductive Json where
  | str (s : String)
  | arr (elements : List Json)
  | obj (members : List (String × Json))

/-- Serialization of one message by `json.dump` (src/main.py line 94):
an object with keys in the stable order role, content. -/
def Message.toJson (m : Message) : Json :=
  Json.obj [("role", Json.str m.role), ("content", Json.str m.content)]

/-- Serialization of the whole history: a JSON array of message objects. -/
def historyToJson (history : List Message) : Json :=
  Json.arr (history.map Message.toJson)

/-- Reading one message back from the parsed JSON. -/
def Message.fromJson : Json → Option Message
  | Json.obj [("role", Json.str r), ("content", Json.str c)] =>
    some { role := r, content := c }
  | _ => none

/-- Reading a list of messages back from the parsed JSON elements. -/
def messagesFromJson : List Json → Option (List Message)
  | [] => some []
  | j :: rest =>
    match Message.fromJson j, messagesFromJson rest with
    | some m, some ms => some (m :: ms)
    | _, _ => none

/-- Decoding a persisted history from its JSON value. -/
def historyFromJson : Json → Option (List Message)
  | Json.arr elements => messagesFromJson elements
  | _ => none

/-- The file system as `save_conversation_history` /
`load_conversation_history` see it: file name ↦ JSON value the file holds
(the `json` module faithfully round-trips such values through text). -/
abbrev HistoryStore : Type := List (String × Json)

/-- `save_conversation_history` (src/main.py lines 88-98): writes the JSON
serialization of the history to `history_file`. -/
def save_conversation_history (store : HistoryStore) (history_file : String)
    (history : List Message) : HistoryStore :=
  updateAssoc store history_file (historyToJson history)

/-- The file read plus `json.load` of `load_conversation_history`
(src/main.py lines 76-78): `none` when the file is absent
(`FileNotFoundError`) or its content does not parse as a message array
(`JSONDecodeError`). -/
def loadHistoryFromStore (store : HistoryStore) (history_file : String) :
    Option (List Message) :=
  (List.lookup history_file store).bind historyFromJson

/-- `load_conversation_history` (src/main.py lines 70-86): adopts the loaded
history verbatim on success; on `FileNotFoundError` or `JSONDecodeError`
re-seeds `[{"role": "system", "content": self.system_message}]`. -/
def load_conversation_history (store : HistoryStore)
    (mgr : ConversationManager) : ConversationManager :=
  match loadHistoryFromStore store mgr.history_file with
  | some h => { mgr with conversation_history := h }
  | none => { mgr with conversation_history := [⟨"system", mgr.system_message⟩] }

/-- The error `ConversationManager.__init__` can raise: reading an attribute
that was never assigned (src/main.py line 67 reads `self.api_key` and
`self.base_url`, which lines 42-45 assign only when the corresponding
argument is `None`). -/
inductive InitError where
  | attributeError (attr : String)
deriving Repr, DecidableEq

/-- `ConversationManager.__init__` (src/main.py lines 25-67).
`env_api_key` is `DEFAULT_API_KEY` (line 13, the environment lookup, which
may itself be `None`); `default_history_file` is the timestamped
`DEFAULT_HISTORY_FILE` (line 19). `self.api_key` / `self.base_url` are
assigned only when the respective argument is `None` (lines 42-45); the
`OpenAI` client construction (line 67) reads both attributes, `api_key`
first, and raises `AttributeError` for an unassigned one. -/
def ConversationManager.init (env_api_key : Option String)
    (default_history_file : String) (store : HistoryStore)
    (api_key : Option String) (base_url : Option String)
    (model : Option String) (history_file : Option String)
    (temperature : Option Rat) (max_tokens : Option Nat)
    (token_budget : Option Nat) : Except InitError ConversationManager :=
  let self_api_key : Option (Option String) :=
    match api_key with
    | none => some env_api_key
    | some _ => none
  let self_base_url : Option String :=
    match base_url with
    | none => some DEFAULT_BASE_URL
    | some _ => none
  let self_model := pyOrDefaultStr model DEFAULT_MODEL
  let self_temperature := pyOrDefaultRat temperature DEFAULT_TEMPERATURE
  let self_max_tokens := pyOrDefaultNat max_tokens DEFAULT_MAX_TOKENS
  let self_token_budget := pyOrDefaultNat token_budget DEFAULT_TOKEN_BUDGET
  let self_history_file := pyOrDefaultStr history_file default_history_file
  let self_system_message := "You are a sassy assistant who is fed up with answering questions."
  match self_api_key with
  | none => Except.error (InitError.attributeError "api_key")
  | some key =>
    match self_base_url with
    | none => Except.error (InitError.attributeError "base_url")
    | some url =>
      Except.ok (load_conversation_history store
        { api_key := key,
          base_url := url,
          model := self_model,
          temperature := self_temperature,
          max_tokens := self_max_tokens,
          token_budget := self_token_budget,
          history_file := self_history_file,
          system_messages := defaultSystemMessages,
          system_message := self_system_message,
          conversation_history := [⟨"system", self_system_message⟩],
          client_api_key := key,
          client_base_url := url })

/-- A tokenizer counting 100 tokens for every text (a concrete instance of
the external tokenizer capability, used for concrete evaluations). -/
def tok100 : String → Nat := fun _ => 100

/-- A concrete manager state with a tiny token budget, used for concrete
evaluations. -/
def sampleManager : ConversationManager :=
  { api_key := some "env-key",
    base_url := "https://api.openai.com/v1",
    model := "gpt-4o-mini",
    temperature := 7 / 10,
    max_tokens := 512,
    token_budget := 1,
    history_file := "hist.json",
    system_messages := defaultSystemMessages,
    system_message := "sys",
    conversation_history := [⟨"system", "sys"⟩],
    client_api_key := some "env-key",
    client_base_url := "https://api.openai.com/v1" }

/-- A concrete `chat_completion` call whose provider attempt fails with an
unexpected (non-provider-reported) error. -/
def failingCall : ChatCall :=
  { prompt := "hello",
    temperature := none,
    max_tokens := none,
    model := none,
    providerResult := ProviderResult.otherError }

/-- A concrete `chat_completion` call whose provider attempt succeeds. -/
def succeedingCall : ChatCall :=
  { prompt := "hi",
    temperature := none,
    max_tokens := none,
    model := none,
    providerResult := ProviderResult.success "ok" }

/- ### Helper lemmas about the token-budget loop -/

theorem enforceLoop_cons (tok : String → Nat) (budget : Nat) :
    ∀ (fuel : Nat) (m : Message) (rest : List Message),
    ∃ k, enforceTokenBudgetLoop tok budget fuel (m :: rest) = m :: rest.drop k := by
  intro fuel
  induction fuel with
  | zero =>
    intro m rest
    exact ⟨0, by simp [enforceTokenBudgetLoop]⟩
  | succ n ih =>
    intro m rest
    by_cases hc : total_tokens_used tok (m :: rest) > budget
    · cases rest with
      | nil =>
        exact ⟨0, by simp [enforceTokenBudgetLoop, hc]⟩
      | cons r rest' =>
        obtain ⟨k, hk⟩ := ih m rest'
        refine ⟨k + 1, ?_⟩
        simpa [enforceTokenBudgetLoop, hc, List.eraseIdx] using hk
    · exact ⟨0, by simp [enforceTokenBudgetLoop, hc]⟩

theorem enforceLoop_budget (tok : String → Nat) (budget : Nat) :
    ∀ (fuel : Nat) (history : List Message), history.length ≤ fuel →
    total_tokens_used tok (enforceTokenBudgetLoop tok budget fuel history) ≤ budget
    ∨ (enforceTokenBudgetLoop tok budget fuel history).length = 1 := by
  intro fuel
  induction fuel with
  | zero =>
    intro history hlen
    have hnil : history = [] := List.eq_nil_of_length_eq_zero (Nat.le_zero.mp hlen)
    subst hnil
    left
    simp [enforceTokenBudgetLoop, total_tokens_used]
  | succ n ih =>
    intro history hlen
    by_cases hc : total_tokens_used tok history > budget
    · cases history with
      | nil =>
        exfalso
        simp [total_tokens_used] at hc
      | cons m t =>
        cases t with
        | nil =>
          right
          simp [enforceTokenBudgetLoop, hc]
        | cons r rest =>
          have hlt : 1 < (m :: r :: rest).length := by simp
          have hrec : (m :: rest).length ≤ n := by
            simp only [List.length_cons] at hlen ⊢
            omega
          simpa [enforceTokenBudgetLoop, hc, hlt, List.eraseIdx] using
            ih (m :: rest) hrec
    · left
      simp only [enforceTokenBudgetLoop, if_neg hc]
      omega

theorem enforceLoop_steps (tok : String → Nat) (budget : Nat) :
    ∀ (fuel : Nat) (history : List Message), history.length ≤ fuel →
    (enforceTokenBudgetLoop tok budget fuel history).length
      + enforceTokenBudgetStepsLoop tok budget fuel history = history.length
    ∧ enforceTokenBudgetStepsLoop tok budget fuel history ≤ history.length - 1 := by
  intro fuel
  induction fuel with
  | zero =>
    intro history hlen
    have hnil : history = [] := List.eq_nil_of_length_eq_zero (Nat.le_zero.mp hlen)
    subst hnil
    simp [enforceTokenBudgetLoop, enforceTokenBudgetStepsLoop]
  | succ n ih =>
    intro history hlen
    by_cases hc : total_tokens_used tok history > budget
    · cases history with
      | nil =>
        exfalso
        simp [total_tokens_used] at hc
      | cons m t =>
        cases t with
        | nil =>
          simp [enforceTokenBudgetLoop, enforceTokenBudgetStepsLoop, hc]
        | cons r rest =>
          have hlt : 1 < (m :: r :: rest).length := by simp
          have hrec : (m :: rest).length ≤ n := by
            simp only [List.length_cons] at hlen ⊢
            omega
          obtain ⟨h1, h2⟩ := ih (m :: rest) hrec
          have e1 : enforceTokenBudgetLoop tok budget (n + 1) (m :: r :: rest)
              = enforceTokenBudgetLoop tok budget n (m :: rest) := by
            simp [enforceTokenBudgetLoop, hc, List.eraseIdx]
          have e2 : enforceTokenBudgetStepsLoop tok budget (n + 1) (m :: r :: rest)
              = enforceTokenBudgetStepsLoop tok budget n (m :: rest) + 1 := by
            simp [enforceTokenBudgetStepsLoop, hc, List.eraseIdx]
          rw [e1, e2]
          simp only [List.length_cons] at h1 h2 ⊢
          omega
    · simp [enforceTokenBudgetLoop, enforceTokenBudgetStepsLoop, hc]

/-- The `enforce_token_budget` loop keeps the head message and returns it
followed by a suffix of the original tail. -/
theorem enforce_cons_drop (tok : String → Nat) (budget : Nat) (m : Message)
    (rest : List Message) :
    ∃ k, enforce_token_budget tok budget (m :: rest) = m :: rest.drop k :=
  enforceLoop_cons tok budget (m :: rest).length m rest

/-- One `chat_completion` call keeps the head of a non-empty history. -/
theorem chat_completion_history_cons (tok : String → Nat)
    (mgr : ConversationManager) (c : ChatCall) (m : Message) (t : List Message)
    (h : mgr.conversation_history = m :: t) :
    ∃ t', (chat_completion tok mgr c).state.conversation_history = m :: t' := by
  obtain ⟨k, hk⟩ := enforce_cons_drop tok mgr.token_budget m (t ++ [⟨"user", c.prompt⟩])
  have h1 : mgr.conversation_history ++ [(⟨"user", c.prompt⟩ : Message)]
      = m :: (t ++ [⟨"user", c.prompt⟩]) := by
    rw [h]
    rfl
  cases hp : c.providerResult with
  | success s =>
    refine ⟨(t ++ [(⟨"user", c.prompt⟩ : Message)]).drop k ++ [⟨"assistant", s⟩], ?_⟩
    simp [chat_completion, hp, h1, hk]
  | openAIError =>
    refine ⟨(t ++ [(⟨"user", c.prompt⟩ : Message)]).drop k, ?_⟩
    simp [chat_completion, hp, h1, hk]
  | otherError =>
    refine ⟨(t ++ [(⟨"user", c.prompt⟩ : Message)]).drop k, ?_⟩
    simp [chat_completion, hp, h1, hk]

/-- A whole sequence of `chat_completion` calls keeps the head of a
non-empty history. -/
theorem runCalls_history_cons (tok : String → Nat) :
    ∀ (calls : List ChatCall) (mgr : ConversationManager) (m : Message)
      (t : List Message), mgr.conversation_history = m :: t →
    ∃ t', (runCalls tok mgr calls).conversation_history = m :: t' := by
  intro calls
  induction calls with
  | nil =>
    intro mgr m t h
    exact ⟨t, h⟩
  | cons c cs ih =>
    intro mgr m t h
    obtain ⟨t', ht'⟩ := chat_completion_history_cons tok mgr c m t h
    exact ih ((chat_completion tok mgr c).state) m t' ht'

/- ### Claim theorems -/

/-- Claim C2: after `enforce_token_budget`, either the total token count of
the history (sum of `count_tokens` over all messages including the system
message) is at most the token budget, or the history has length 1. -/
theorem enforce_token_budget_post (tok : String → Nat) (budget : Nat)
    (history : List Message) :
    total_tokens_used tok (enforce_token_budget tok budget history) ≤ budget
    ∨ (enforce_token_budget tok budget history).length = 1 :=
  enforceLoop_budget tok budget history.length history (Nat.le_refl _)

/-- Claim C4: `enforce_token_budget` evicts strictly in insertion order from
index 1: the result is the original head (the index-0 system message, never
evicted) followed by a contiguous suffix of the original non-system
messages, each survivor unchanged. -/
theorem enforce_token_budget_fifo (tok : String → Nat) (budget : Nat)
    (m : Message) (rest : List Message) :
    ∃ k, enforce_token_budget tok budget (m :: rest) = m :: rest.drop k :=
  enforce_cons_drop tok budget m rest

/-- Claim C10: `enforce_token_budget` terminates on every history and
budget: each loop iteration that does not exit removes exactly one message
(result length plus iteration count equals the original length), and the
loop runs at most `len(history) - 1` iterations. -/
theorem enforce_token_budget_terminates (tok : String → Nat) (budget : Nat)
    (history : List Message) :
    (enforce_token_budget tok budget history).length
      + enforce_token_budget_steps tok budget history = history.length
    ∧ enforce_token_budget_steps tok budget history ≤ history.length - 1 :=
  enforceLoop_steps tok budget history.length history (Nat.le_refl _)

/-- Claim C3: for every sequence of `chat_completion` calls on a manager
whose history starts as the seeded `[{system, persona text}]`, the invariant
`history[0].role == "system"` holds after every call (the universally
quantified call list covers every prefix of a longer sequence): the system
message at index 0 is never removed. -/
theorem chat_completion_system_invariant (tok : String → Nat)
    (mgr : ConversationManager) (p : String)
    (h : mgr.conversation_history = [⟨"system", p⟩]) (calls : List ChatCall) :
    ((runCalls tok mgr calls).conversation_history.head?).map Message.role
      = some "system" := by
  obtain ⟨t', ht'⟩ := runCalls_history_cons tok calls mgr ⟨"system", p⟩ [] h
  rw [ht']
  rfl

/-- Witness for C3: a concrete seeded manager and a concrete two-call
sequence (one failing call, one successful call). -/
theorem chat_completion_system_invariant_witness :
    sampleManager.conversation_history = [⟨"system", "sys"⟩]
    ∧ ((runCalls tok100 sampleManager [failingCall, succeedingCall]).conversation_history.head?).map
        Message.role = some "system" :=
  ⟨rfl, chat_completion_system_invariant tok100 sampleManager "sys" rfl
    [failingCall, succeedingCall]⟩

/-- Claim C5: `chat_completion` always invokes the provider with the
manager's stored model, regardless of any per-call `model` argument, and
per-call overrides of `temperature`, `max_tokens` and `model` never mutate
the stored configuration fields of the manager. -/
theorem chat_completion_model_and_config (tok : String → Nat)
    (mgr : ConversationManager) (c : ChatCall) :
    (chat_completion tok mgr c).request.model = mgr.model
    ∧ (chat_completion tok mgr c).state.model = mgr.model
    ∧ (chat_completion tok mgr c).state.temperature = mgr.temperature
    ∧ (chat_completion tok mgr c).state.max_tokens = mgr.max_tokens
    ∧ (chat_completion tok mgr c).state.token_budget = mgr.token_budget := by
  cases hp : c.providerResult <;> simp [chat_completion, hp]

/-- Claim C6 (the code contradicts it): supplying an explicit `api_key`
makes `__init__` raise `AttributeError`, because lines 42-43 assign
`self.api_key` only when the argument is `None` and line 67 then reads the
unassigned attribute — the supplied key is neither stored nor used to
configure the client. -/
theorem init_supplied_api_key_attribute_error :
    ConversationManager.init (some "env-key") "hist.json" [] (some "sk-test")
      none none none none none none
      = Except.error (InitError.attributeError "api_key") := rfl

/- ### Association-list and persona lemmas -/

theorem lookup_updateAssoc {α : Type} (l : List (String × α)) (k : String)
    (v : α) : List.lookup k (updateAssoc l k v) = some v := by
  induction l with
  | nil => simp [updateAssoc, List.lookup]
  | cons p rest ih =>
    obtain ⟨k', v'⟩ := p
    by_cases hk : k' = k
    · subst hk
      simp [updateAssoc, List.lookup]
    · have hbeq : (k == k') = false := by
        simp [Ne.symm hk]
      simp [updateAssoc, hk, List.lookup, hbeq, ih]

/-- What `set_persona` does when the persona is in the catalog. -/
theorem set_persona_found (mgr : ConversationManager) (p text : String)
    (h : List.lookup p mgr.system_messages = some text) :
    (set_persona mgr p).2 = none
    ∧ (set_persona mgr p).1.conversation_history.head?.map Message.content = some text
    ∧ (set_persona mgr p).1.conversation_history.head?.map Message.role = some "system"
    ∧ (set_persona mgr p).1.conversation_history.tail =
        (if mgr.conversation_history.head?.map Message.role = some "system"
         then mgr.conversation_history.tail else mgr.conversation_history) := by
  unfold set_persona
  rw [h]
  unfold update_system_message_in_history
  cases hh : mgr.conversation_history with
  | nil => simp [hh]
  | cons m rest =>
    by_cases hr : m.role = "system"
    · simp [hh, hr]
    · simp [hh, hr]

/-- `set_persona` never touches the persona catalog. -/
theorem set_persona_catalog (mgr : ConversationManager) (p : String) :
    (set_persona mgr p).1.system_messages = mgr.system_messages := by
  unfold set_persona
  cases List.lookup p mgr.system_messages with
  | none => rfl
  | some text =>
    unfold update_system_message_in_history
    cases mgr.conversation_history with
    | nil => rfl
    | cons m rest =>
      by_cases hr : m.role = "system" <;> simp [hr]

/-- Claim C7: `set_persona` fails with the unknown-persona error when the
name is not in the catalog, returning the manager unchanged (history
included); when the name is in the catalog it succeeds, the index-0 message
ends with role "system" and the persona's text as content, and every other
message is untouched (the tail is the old tail, or the whole old history
when a system message had to be inserted at index 0). -/
theorem set_persona_cases (mgr : ConversationManager) (p : String) :
    (List.lookup p mgr.system_messages = none →
      set_persona mgr p = (mgr, some (ManagerError.unknownPersona p)))
    ∧ (∀ text, List.lookup p mgr.system_messages = some text →
      (set_persona mgr p).2 = none
      ∧ (set_persona mgr p).1.conversation_history.head?.map Message.content = some text
      ∧ (set_persona mgr p).1.conversation_history.head?.map Message.role = some "system"
      ∧ (set_persona mgr p).1.conversation_history.tail =
          (if mgr.conversation_history.head?.map Message.role = some "system"
           then mgr.conversation_history.tail else mgr.conversation_history)) := by
  constructor
  · intro h
    simp [set_persona, h]
  · intro text h
    exact set_persona_found mgr p text h

/-- Witness for C7: a concrete unknown persona name. -/
theorem set_persona_cases_witness :
    List.lookup "nope" sampleManager.system_messages = none
    ∧ set_persona sampleManager "nope"
        = (sampleManager, some (ManagerError.unknownPersona "nope")) :=
  ⟨by decide, (set_persona_cases sampleManager "nope").1 (by decide)⟩

/-- Claim C8: `set_custom_system_message` fails with the empty-message error
on empty/whitespace-only text, returning the manager unchanged (history and
catalog included); otherwise it succeeds, the text is stored under catalog
key "custom", and the index-0 system message's content becomes the text. -/
theorem set_custom_system_message_cases (mgr : ConversationManager)
    (t : String) :
    (pyStripIsEmpty t = true →
      set_custom_system_message mgr t = (mgr, some ManagerError.emptyMessage))
    ∧ (pyStripIsEmpty t = false →
      (set_custom_system_message mgr t).2 = none
      ∧ List.lookup "custom" (set_custom_system_message mgr t).1.system_messages = some t
      ∧ (set_custom_system_message mgr t).1.conversation_history.head?.map
          Message.content = some t) := by
  constructor
  · intro h
    simp [set_custom_system_message, h]
  · intro h
    have hcat := lookup_updateAssoc mgr.system_messages "custom" t
    have heq : set_custom_system_message mgr t
        = set_persona
            { mgr with system_messages := updateAssoc mgr.system_messages "custom" t }
            "custom" := by
      simp [set_custom_system_message, h]
    rw [heq]
    have hfound := set_persona_found
      { mgr with system_messages := updateAssoc mgr.system_messages "custom" t }
      "custom" t hcat
    refine ⟨hfound.1, ?_, hfound.2.1⟩
    rw [set_persona_catalog]
    exact hcat

/-- Witness for C8: concrete whitespace-only text. -/
theorem set_custom_system_message_witness :
    pyStripIsEmpty "   " = true
    ∧ set_custom_system_message sampleManager "   "
        = (sampleManager, some ManagerError.emptyMessage) :=
  ⟨by decide, (set_custom_system_message_cases sampleManager "   ").1 (by decide)⟩

/- ### Persistence round-trip -/

theorem messagesFromJson_map_toJson (H : List Message) :
    messagesFromJson (H.map Message.toJson) = some H := by
  induction H with
  | nil => rfl
  | cons m rest ih =>
    simp [messagesFromJson, Message.toJson, Message.fromJson, ih]

/-- Claim C9: saving a history to a slot and then loading from that slot
yields a history equal to the one saved — same messages, same order, same
role and content for each. -/
theorem save_load_roundtrip (store : HistoryStore)
    (mgr : ConversationManager) (H : List Message) :
    (load_conversation_history
        (save_conversation_history store mgr.history_file H) mgr).conversation_history
      = H := by
  unfold load_conversation_history loadHistoryFromStore save_conversation_history
  rw [lookup_updateAssoc]
  simp [historyToJson, historyFromJson, messagesFromJson_map_toJson]
